import Mathlib

/-!
Verification of the file-transfer core of `magic-wormhole.rs`
(`src/transfer.rs`), against its natural-language specification.

The program is shallowly embedded: the peer-message data model and its
wire encoding/decoding (the `messages` submodule, whose source is not part
of the checked tree, so it is modelled from the specification's words),
the error taxonomy `TransferError`, and the receiver-side state machine
(`request_file`, `ReceiveRequest.accept`, `ReceiveRequest.reject`).

Effectful code is embedded by explicit environment passing: an `Env` value
fixes the outcome of every call into the wormhole channel / transit
abstractions (each `send`, each `receive`, `transit::init`,
`follower_connect`, the bulk-transfer delegate and `close`), and a run
returns both its `Result` and the list of observable `Event`s it
performed, in order.
-/

namespace Transfer

/-- A JSON value, the self-describing structured-object wire format of the
peer-message channel (`serde_json` values; object member order kept). -/
inductive Json where
  | null : Json
  | bool (b : Bool) : Json
  | num (n : Nat) : Json
  | str (s : String) : Json
  | arr (elems : List Json) : Json
  | obj (members : List (String × Json)) : Json

/-- First value bound to key `k`, as a JSON object lookup. -/
def jlookup (k : String) : List (String × Json) → Option Json
  | [] => none
  | (key, v) :: rest => if key = k then some v else jlookup k rest

/-- Transit abilities, abstracted to their wire tags (the transit crate is an
external collaborator; only identity of the value matters here). -/
abbrev Abilities := List String

/-- Transit connection hints, likewise abstracted. -/
abbrev Hints := List String

/-- Modelled from the spec: the `Transit{abilities, hints}` peer message body,
`{"transit": {abilities-v1, hints-v1}}` on the wire. -/
structure TransitV1 where
  abilities_v1 : Abilities
  hints_v1 : Hints
deriving DecidableEq

/-- Modelled from the spec: the offer variants — `File{filename, filesize}`,
`Directory{dirname, mode, zipsize, numbytes, numfiles}`, and one
extensibility variant (`UnknownVariant`) for offer kinds whose tag this
implementation does not recognize. -/
inductive Offer where
  | File (filename : String) (filesize : Nat) : Offer
  | Directory (dirname : String) (mode : String) (zipsize : Nat)
      (numbytes : Nat) (numfiles : Nat) : Offer
  | UnknownVariant (tag : String) : Offer
deriving DecidableEq

/-- Modelled from the spec: the accept acknowledgment, a fixed token for the
file case or a structured per-file status for the directory case. -/
inductive Answer where
  | FileAck (token : String) : Answer
  | DirectoryAck (status : List (String × Bool)) : Answer
deriving DecidableEq

/-- Modelled from the spec: `PeerMessage`, the tagged union of everything
that can cross the encrypted channel: `Offer`, `Answer`, `Error(String)`,
`Transit{abilities, hints}`, plus the distinguishable "unsupported" value
(`Unknown`) an unrecognized variant tag decodes to. -/
inductive PeerMessage where
  | Offer (o : Offer) : PeerMessage
  | Answer (a : Answer) : PeerMessage
  | Error (msg : String) : PeerMessage
  | Transit (t : TransitV1) : PeerMessage
  | Unknown (tag : String) : PeerMessage
deriving DecidableEq

/-- `PeerMessage::file_ack` of the source. -/
def PeerMessage.file_ack (token : String) : PeerMessage := .Answer (.FileAck token)

/-- `PeerMessage::error_message` of the source. -/
def PeerMessage.error_message (msg : String) : PeerMessage := .Error msg

/-- The variant tags this implementation recognizes at the top level. -/
def recognizedTags : List String := ["offer", "answer", "error", "transit"]

/-- The offer variant tags this implementation recognizes. -/
def recognizedOfferTags : List String := ["file", "directory"]

/-- A `PeerMessage` value is well-formed when its `Unknown`-variant tags do
not collide with a recognized tag: exactly the values that represent actual
Rust `PeerMessage` values (the Lean inductive is otherwise a superset). -/
def Offer.wfb : Offer → Bool
  | .UnknownVariant tag => decide (tag ∉ recognizedOfferTags)
  | _ => true

/-- Well-formedness of a `PeerMessage` (see `Offer.wfb`). -/
def PeerMessage.wfb : PeerMessage → Bool
  | .Offer o => o.wfb
  | .Unknown tag => decide (tag ∉ recognizedTags)
  | _ => true

/-- Modelled from the spec: encoding of abilities/hints lists. -/
def encodeStrList (l : List String) : Json := .arr (l.map .str)

/-- Modelled from the spec: wire encoding of an offer body,
`{"file": {...}} / {"directory": {...}}` / the extensibility tag. -/
def encodeOffer : Offer → Json
  | .File filename filesize =>
      .obj [("file", .obj [("filename", .str filename), ("filesize", .num filesize)])]
  | .Directory dirname mode zipsize numbytes numfiles =>
      .obj [("directory", .obj
        [("dirname", .str dirname), ("mode", .str mode), ("zipsize", .num zipsize),
         ("numbytes", .num numbytes), ("numfiles", .num numfiles)])]
  | .UnknownVariant tag => .obj [(tag, .null)]

/-- Modelled from the spec: wire encoding of an answer body. -/
def encodeAnswer : Answer → Json
  | .FileAck token => .obj [("file_ack", .str token)]
  | .DirectoryAck status =>
      .obj [("directory_ack", .arr (status.map fun p => .obj [(p.1, .bool p.2)]))]

/-- Modelled from the spec: `encode(PeerMessage) -> bytes`; the wire messages
are one-key objects `{"offer": ...}`, `{"transit": {abilities-v1, hints-v1}}`,
`{"answer": ...}`, `{"error": "<string>"}`. -/
def encodePeerMessage : PeerMessage → Json
  | .Offer o => .obj [("offer", encodeOffer o)]
  | .Answer a => .obj [("answer", encodeAnswer a)]
  | .Error msg => .obj [("error", .str msg)]
  | .Transit t => .obj [("transit", .obj
      [("abilities-v1", encodeStrList t.abilities_v1),
       ("hints-v1", encodeStrList t.hints_v1)])]
  | .Unknown tag => .obj [(tag, .null)]

/-- Decode a JSON array of strings (strict). -/
def decodeStrs : List Json → Except String (List String)
  | [] => .ok []
  | .str s :: rest => (decodeStrs rest).map (s :: ·)
  | _ :: _ => .error "expected a string"

/-- Decode abilities/hints (strict on shape). -/
def decodeStrList : Json → Except String (List String)
  | .arr elems => decodeStrs elems
  | _ => .error "expected an array"

/-- Modelled from the spec: decoding of an offer body — strict on the
structural shape of recognized variants, while an unrecognized offer
variant tag decodes to the distinguishable `UnknownVariant` value. -/
def decodeOffer (j : Json) : Except String Offer :=
  match j with
  | .obj members =>
    match jlookup "file" members with
    | some payload =>
      (match payload with
       | .obj fields =>
         (match jlookup "filename" fields, jlookup "filesize" fields with
          | some (.str filename), some (.num filesize) => .ok (.File filename filesize)
          | _, _ => .error "malformed file offer")
       | _ => .error "malformed file offer")
    | none =>
      match jlookup "directory" members with
      | some payload =>
        (match payload with
         | .obj fields =>
           (match jlookup "dirname" fields, jlookup "mode" fields,
                  jlookup "zipsize" fields, jlookup "numbytes" fields,
                  jlookup "numfiles" fields with
            | some (.str dirname), some (.str mode), some (.num zipsize),
              some (.num numbytes), some (.num numfiles) =>
                .ok (.Directory dirname mode zipsize numbytes numfiles)
            | _, _, _, _, _ => .error "malformed directory offer")
         | _ => .error "malformed directory offer")
      | none =>
        match members with
        | (tag, _) :: _ => .ok (.UnknownVariant tag)
        | [] => .error "empty offer"
  | _ => .error "expected an offer object"

/-- Decoding of an answer body (strict). -/
def decodeAnswer (j : Json) : Except String Answer :=
  match j with
  | .obj members =>
    match jlookup "file_ack" members with
    | some (.str token) => .ok (.FileAck token)
    | some _ => .error "malformed file_ack"
    | none =>
      match jlookup "directory_ack" members with
      | some (.arr elems) =>
        (decodeDirStatus elems).map .DirectoryAck
      | some _ => .error "malformed directory_ack"
      | none => .error "unknown answer variant"
  | _ => .error "expected an answer object"
where
  decodeDirStatus : List Json → Except String (List (String × Bool))
    | [] => .ok []
    | .obj [(k, .bool b)] :: rest => (decodeDirStatus rest).map ((k, b) :: ·)
    | _ :: _ => .error "malformed directory_ack entry"

/-- Decoding the body of a transit message (strict on shape). -/
def decodeTransit (j : Json) : Except String TransitV1 :=
  match j with
  | .obj members =>
    match jlookup "abilities-v1" members, jlookup "hints-v1" members with
    | some a, some h =>
      (match decodeStrList a, decodeStrList h with
       | .ok abilities, .ok hints => .ok ⟨abilities, hints⟩
       | _, _ => .error "malformed transit body")
    | _, _ => .error "malformed transit body"
  | _ => .error "expected a transit object"

/-- Modelled from the spec: `decode(bytes) -> PeerMessage | DecodeError`.
A recognized variant tag is decoded strictly; unknown top-level keys are
ignored when a recognized tag is present; a message whose tag is not
recognized decodes to the distinguishable `Unknown` value; anything that is
not a non-empty object is a decode error. -/
def decodePeerMessage (j : Json) : Except String PeerMessage :=
  match j with
  | .obj members =>
    match jlookup "offer" members with
    | some payload => (decodeOffer payload).map .Offer
    | none =>
      match jlookup "answer" members with
      | some payload => (decodeAnswer payload).map .Answer
      | none =>
        match jlookup "error" members with
        | some (.str msg) => .ok (.Error msg)
        | some _ => .error "malformed error message"
        | none =>
          match jlookup "transit" members with
          | some payload => (decodeTransit payload).map .Transit
          | none =>
            match members with
            | (tag, _) :: _ => .ok (.Unknown tag)
            | [] => .error "empty message object"
  | _ => .error "expected a message object"

theorem decodeStrs_encode (l : List String) :
    decodeStrs (l.map .str) = .ok l := by
  induction l with
  | nil => rfl
  | cons x xs ih => simp [decodeStrs, ih, Except.map]

theorem decodeStrList_encode (l : List String) :
    decodeStrList (encodeStrList l) = .ok l := by
  simp [decodeStrList, encodeStrList, decodeStrs_encode]

theorem decodeDirStatus_encode (l : List (String × Bool)) :
    decodeAnswer.decodeDirStatus (l.map fun p => .obj [(p.1, .bool p.2)]) = .ok l := by
  induction l with
  | nil => rfl
  | cons x xs ih => simp [decodeAnswer.decodeDirStatus, ih, Except.map]

/-- Round-trip of the wire encoding on every well-formed `PeerMessage`
(shared helper; C2's theorem and the state-machine theorems both use it). -/
theorem decode_encode (m : PeerMessage) (h : m.wfb = true) :
    decodePeerMessage (encodePeerMessage m) = .ok m := by
  match m with
  | .Offer o =>
    match o with
    | .File filename filesize =>
      simp [encodePeerMessage, encodeOffer, decodePeerMessage, decodeOffer,
        jlookup, Except.map]
    | .Directory dirname mode zipsize numbytes numfiles =>
      simp [encodePeerMessage, encodeOffer, decodePeerMessage, decodeOffer,
        jlookup, Except.map]
    | .UnknownVariant tag =>
      simp only [PeerMessage.wfb, Offer.wfb, recognizedOfferTags,
        decide_eq_true_eq, List.mem_cons, List.not_mem_nil, or_false,
        not_or] at h
      simp [encodePeerMessage, encodeOffer, decodePeerMessage, decodeOffer,
        jlookup, Except.map, h.1, h.2]
  | .Answer a =>
    match a with
    | .FileAck token =>
      simp [encodePeerMessage, encodeAnswer, decodePeerMessage, decodeAnswer,
        jlookup, Except.map]
    | .DirectoryAck status =>
      simp [encodePeerMessage, encodeAnswer, decodePeerMessage, decodeAnswer,
        jlookup, Except.map, decodeDirStatus_encode]
  | .Error msg =>
    simp [encodePeerMessage, decodePeerMessage, jlookup]
  | .Transit t =>
    simp [encodePeerMessage, decodePeerMessage, decodeTransit, jlookup,
      decodeStrList_encode, Except.map]
  | .Unknown tag =>
    simp only [PeerMessage.wfb, recognizedTags, decide_eq_true_eq,
      List.mem_cons, List.not_mem_nil, or_false, not_or] at h
    obtain ⟨h₁, h₂, h₃, h₄⟩ := h
    simp [encodePeerMessage, decodePeerMessage, jlookup, h₁, h₂, h₃, h₄]

/-- C2: for every (well-formed) value `m` of the `PeerMessage` type, decoding
the bytes produced by encoding `m` yields exactly `m`. -/
theorem peerMessage_decode_encode_roundtrip (m : PeerMessage) (h : m.wfb = true) :
    decodePeerMessage (encodePeerMessage m) = .ok m :=
  decode_encode m h

/-- C2 witness: the round-trip at a concrete message. -/
theorem peerMessage_decode_encode_roundtrip_witness :
    (PeerMessage.Offer (.File "a.txt" 5)).wfb = true ∧
    decodePeerMessage (encodePeerMessage (.Offer (.File "a.txt" 5)))
      = .ok (.Offer (.File "a.txt" 5)) :=
  ⟨rfl, peerMessage_decode_encode_roundtrip (.Offer (.File "a.txt" 5)) rfl⟩

/-! ## Paths: `PathBuf::set_extension`

`request_file` rewrites a `Directory` offer's `dirname` with
`dirname.set_extension("zip")`. Paths are embedded as strings; the
semantics below is Rust's: no change when the path has no file name
(empty, or ending in `.` / `..` components), otherwise the final
component's extension (the part after its last dot, provided the stem
before that dot is non-empty) is replaced by `.ext`. -/

/-- The stem of a file name: everything before its last `.`, except that a
name whose only `.` is its first character (or which has no `.`) is all
stem. -/
def fileStem (name : List Char) : List Char :=
  let rev := name.reverse
  let stemRev := (rev.dropWhile (· ≠ '.')).drop 1
  if rev.contains '.' ∧ stemRev ≠ [] then stemRev.reverse else name

/-- `PathBuf::set_extension` (for a non-empty extension, as used by the
source with `"zip"`). -/
def set_extension (p : String) (ext : String) : String :=
  let name := (p.data.reverse.takeWhile (· ≠ '/')).reverse
  let pre := ((p.data.reverse.dropWhile (· ≠ '/')).reverse)
  if name = [] ∨ name = ['.'] ∨ name = ['.', '.'] then p
  else ⟨pre ++ fileStem name ++ '.' :: ext.data⟩

/-! ## Error taxonomy (`TransferError` of `src/transfer.rs`)

External error types (`WormholeError`, `TransitConnectError`,
`TransitError`, `serde_json::Error`, `rmp_serde::decode::Error`,
`std::io::Error`) are abstracted to their message strings. The
`ProtocolUnexpectedMessage` variant's `Box<dyn Debug>` payload is embedded
as the received `PeerMessage` value itself (whose debug rendering the Rust
value carries). -/

abbrev WormholeError := String
abbrev TransitConnectError := String
abbrev TransitError := String

/-- `TransferError` of `src/transfer.rs` (same variants, same payloads). -/
inductive TransferError where
  | AckError : TransferError
  | Checksum : TransferError
  | FileSize (sent_size : Nat) (file_size : Nat) : TransferError
  | FilesystemSkew : TransferError
  | UnsupportedOffer : TransferError
  | PeerError (msg : String) : TransferError
  | ProtocolJson (e : String) : TransferError
  | ProtocolMsgpack (e : String) : TransferError
  | Protocol (msg : String) : TransferError
  | ProtocolUnexpectedMessage (expected : String) (got : PeerMessage) : TransferError
  | Wormhole (e : WormholeError) : TransferError
  | TransitConnect (e : TransitConnectError) : TransferError
  | Transit (e : TransitError) : TransferError
  | IOErr (e : String) : TransferError
deriving DecidableEq

/-- The derived `Debug` rendering of an offer (modelled from the spec's
message model; the exact text is immaterial to every claim). -/
def Offer.debugRender : Offer → String
  | .File filename filesize =>
      "File \x7b filename: \"" ++ filename ++ "\", filesize: "
        ++ toString filesize ++ " \x7d"
  | .Directory dirname mode zipsize numbytes numfiles =>
      "Directory \x7b dirname: \"" ++ dirname ++ "\", mode: \"" ++ mode
        ++ "\", zipsize: " ++ toString zipsize ++ ", numbytes: "
        ++ toString numbytes ++ ", numfiles: " ++ toString numfiles ++ " \x7d"
  | .UnknownVariant tag => "UnknownVariant(\"" ++ tag ++ "\")"

/-- The derived `Debug` rendering of a `PeerMessage`. -/
def PeerMessage.debugRender : PeerMessage → String
  | .Offer o => "Offer(" ++ o.debugRender ++ ")"
  | .Answer (.FileAck token) => "Answer(FileAck(\"" ++ token ++ "\"))"
  | .Answer (.DirectoryAck _) => "Answer(DirectoryAck(..))"
  | .Error msg => "Error(\"" ++ msg ++ "\")"
  | .Transit t =>
      "Transit(TransitV1 \x7b abilities_v1: " ++ toString t.abilities_v1
        ++ ", hints_v1: " ++ toString t.hints_v1 ++ " \x7d)"
  | .Unknown tag => "Unknown(\"" ++ tag ++ "\")"

/-- `Display` of `TransferError`, from the `#[error(...)]` attributes of the
source; this is the text the best-effort peer notifications send. -/
def TransferError.display : TransferError → String
  | .AckError => "Transfer was not acknowledged by peer"
  | .Checksum => "Receive checksum error"
  | .FileSize sent_size file_size =>
      "The file contained a different amount of bytes than advertized! Sent "
        ++ toString sent_size ++ " bytes, but should have been "
        ++ toString file_size
  | .FilesystemSkew =>
      "The file(s) to send got modified during the transfer, and thus corrupted"
  | .UnsupportedOffer => "Unsupported offer type"
  | .PeerError msg => "Something went wrong on the other side: " ++ msg
  | .ProtocolJson _ => "Corrupt JSON message received"
  | .ProtocolMsgpack _ => "Corrupt Msgpack message received"
  | .Protocol msg => "Protocol error: " ++ msg
  | .ProtocolUnexpectedMessage expected got =>
      "Unexpected message (protocol error): Expected '" ++ expected
        ++ "', but got: " ++ got.debugRender
  | .Wormhole _ => "Wormhole connection error"
  | .TransitConnect _ => "Error while establishing transit connection"
  | .Transit _ => "Transit error"
  | .IOErr _ => "IO error"

/-! ## The receiver state machine -/

/-- An observable action of a run: the boundary calls into the channel and
transit abstractions, in order of occurrence. `sent m` records a
`send_json(&m)` call (attempted, whatever its outcome). -/
inductive Event where
  | transitInitCall : Event
  | sent (m : PeerMessage) : Event
  | receiveCall : Event
  | followerConnectCall : Event
  | tcpFileReceiveCall (expectedSize : Nat) : Event
  | closeCall : Event
deriving DecidableEq

/-- What `transit::init` yields: a connector, of which the state machine
only observes its own advertised abilities and hints. -/
structure ConnectorInfo where
  ourAbilities : Abilities
  ourHints : Hints
deriving DecidableEq

/-- The environment: fixed outcomes for every call into the wormhole
channel / transit abstractions. `sendResults.getD i (.ok ())` is the
outcome of the i-th `send_json` of the run; `recvResults` the successive
`receive()` outcomes (each a decoded-bytes JSON value on success). -/
structure Env where
  transitInit : Except TransitConnectError ConnectorInfo
  sendResults : List (Except WormholeError Unit)
  recvResults : List (Except WormholeError Json)
  followerConnect : Except TransitConnectError Unit
  tcpReceive : Except TransferError Unit
  closeResult : Except WormholeError Unit

/-- Outcome of the i-th `send_json` (an environment shorter than the run
lets the remaining sends succeed). -/
def Env.sendAt (env : Env) (i : Nat) : Except WormholeError Unit :=
  env.sendResults.getD i (.ok ())

/-- Outcome of the i-th `receive()`. -/
def Env.recvAt (env : Env) (i : Nat) : Except WormholeError Json :=
  env.recvResults.getD i (.error "channel closed")

/-- A run's outcome: the returned `Result` and the events performed. -/
structure RunResult (α : Type) where
  result : Except TransferError α
  events : List Event

/-- `ReceiveRequest` of `src/transfer.rs`: the pending decision object
(the owned channel and connector handles live in the `Env`). -/
structure ReceiveRequest where
  filename : String
  filesize : Nat
  their_abilities : Abilities
  their_hints : Hints
deriving DecidableEq

/-- Second half of `request_file` (from the second `wormhole.receive()`,
line 344 of `src/transfer.rs`): receive the offer message, match it, and
build the `ReceiveRequest`. -/
def request_file_offer (env : Env) (t : TransitV1) (evs : List Event) :
    RunResult ReceiveRequest :=
  match env.recvAt 1 with
  | .error e => ⟨.error (.Wormhole e), evs ++ [.receiveCall]⟩
  | .ok bytes₂ =>
    match decodePeerMessage bytes₂ with
    | .error e => ⟨.error (.ProtocolJson e), evs ++ [.receiveCall]⟩
    | .ok (.Offer offer_type) =>
      (match offer_type with
       | .File filename filesize =>
           ⟨.ok ⟨filename, filesize, t.abilities_v1, t.hints_v1⟩,
            evs ++ [.receiveCall]⟩
       | .Directory dirname _mode zipsize _numbytes _numfiles =>
           ⟨.ok ⟨set_extension dirname "zip", zipsize, t.abilities_v1, t.hints_v1⟩,
            evs ++ [.receiveCall]⟩
       | .UnknownVariant _ => ⟨.error .UnsupportedOffer, evs ++ [.receiveCall]⟩)
    | .ok (.Error err) => ⟨.error (.PeerError err), evs ++ [.receiveCall]⟩
    | .ok other =>
      let error := TransferError.ProtocolUnexpectedMessage "offer" other
      ⟨.error error,
       evs ++ [.receiveCall, .sent (.Error error.display)]⟩

/-- `request_file` of `src/transfer.rs`: open a transit connector, send the
`Transit` advertisement, receive a `Transit` reply then an `Offer`, and
build the `ReceiveRequest`; a best-effort `Error` is sent (result
discarded) when an unexpected variant arrives. -/
def request_file (env : Env) : RunResult ReceiveRequest :=
  match env.transitInit with
  | .error e => ⟨.error (.TransitConnect e), [.transitInitCall]⟩
  | .ok connector =>
    let advert : PeerMessage := .Transit ⟨connector.ourAbilities, connector.ourHints⟩
    let evs₀ : List Event := [.transitInitCall, .sent advert]
    match env.sendAt 0 with
    | .error e => ⟨.error (.Wormhole e), evs₀⟩
    | .ok _ =>
      match env.recvAt 0 with
      | .error e => ⟨.error (.Wormhole e), evs₀ ++ [.receiveCall]⟩
      | .ok bytes₁ =>
        match decodePeerMessage bytes₁ with
        | .error e => ⟨.error (.ProtocolJson e), evs₀ ++ [.receiveCall]⟩
        | .ok (.Transit t) => request_file_offer env t (evs₀ ++ [.receiveCall])
        | .ok (.Error err) => ⟨.error (.PeerError err), evs₀ ++ [.receiveCall]⟩
        | .ok other =>
          let error := TransferError.ProtocolUnexpectedMessage "transit" other
          ⟨.error error,
           evs₀ ++ [.receiveCall, .sent (.Error error.display)]⟩

/-- `ReceiveRequest::accept` of `src/transfer.rs`: send the file ack,
follower-connect the transit (failure → best-effort notification, then
`TransitConnect`), run the bulk transfer for `filesize` bytes (a
`Transit`-kind failure → best-effort notification), then close. -/
def ReceiveRequest.accept (req : ReceiveRequest) (env : Env) : RunResult Unit :=
  let evs₀ : List Event := [.sent (.file_ack "ok")]
  match env.sendAt 0 with
  | .error e => ⟨.error (.Wormhole e), evs₀⟩
  | .ok _ =>
    let evs₁ := evs₀ ++ [.followerConnectCall]
    match env.followerConnect with
    | .error e =>
      let error := TransferError.TransitConnect e
      ⟨.error error, evs₁ ++ [.sent (.Error error.display)]⟩
    | .ok _ =>
      let evs₂ := evs₁ ++ [.tcpFileReceiveCall req.filesize]
      match env.tcpReceive with
      | .error (.Transit e) =>
          ⟨.error (.Transit e),
           evs₂ ++ [.sent (.Error (TransferError.Transit e).display)]⟩
      | .error other => ⟨.error other, evs₂⟩
      | .ok _ =>
        match env.closeResult with
        | .error e => ⟨.error (.Wormhole e), evs₂ ++ [.closeCall]⟩
        | .ok _ => ⟨.ok (), evs₂ ++ [.closeCall]⟩

/-- `ReceiveRequest::reject` of `src/transfer.rs`: send one `Error` message
("transfer rejected"), then close; both sends/closes propagate their own
failure. -/
def ReceiveRequest.reject (_req : ReceiveRequest) (env : Env) : RunResult Unit :=
  let evs₀ : List Event := [.sent (.error_message "transfer rejected")]
  match env.sendAt 0 with
  | .error e => ⟨.error (.Wormhole e), evs₀⟩
  | .ok _ =>
    match env.closeResult with
    | .error e => ⟨.error (.Wormhole e), evs₀ ++ [.closeCall]⟩
    | .ok _ => ⟨.ok (), evs₀ ++ [.closeCall]⟩

/-! ## Helper predicates and environments for the claims -/

/-- An environment where every channel/transit operation succeeds and the
successive `receive()` calls deliver `msgs`. -/
def mkEnv (msgs : List Json) : Env :=
  ⟨.ok ⟨["direct-tcp-v1", "relay-v1"], ["tcp:localhost:8001"]⟩, [],
   msgs.map .ok, .ok (), .ok (), .ok ()⟩

/-- The all-succeeding environment delivering two encoded peer messages. -/
def twoMsgEnv (m₁ m₂ : PeerMessage) : Env :=
  mkEnv [encodePeerMessage m₁, encodePeerMessage m₂]

/-- Is this event a `send_json` of an `Error` message? -/
def Event.isErrorSend : Event → Bool
  | .sent (.Error _) => true
  | _ => false

/-- Is this event any `send_json`? -/
def Event.isSend : Event → Bool
  | .sent _ => true
  | _ => false

/-- How many `Error` messages a run sent. -/
def errorSendCount (evs : List Event) : Nat := evs.countP (·.isErrorSend)

/-- Is the message a `Transit` advertisement? -/
def PeerMessage.isTransit : PeerMessage → Bool
  | .Transit _ => true
  | _ => false

/-- Is the message an `Error`? -/
def PeerMessage.isError : PeerMessage → Bool
  | .Error _ => true
  | _ => false

/-- Is the message an `Offer` (of any variant)? -/
def PeerMessage.isOffer : PeerMessage → Bool
  | .Offer _ => true
  | _ => false

/-- Is the message an `Offer` of a variant this implementation acts on
(`File` or `Directory`)? -/
def PeerMessage.isActionableOffer : PeerMessage → Bool
  | .Offer (.File _ _) => true
  | .Offer (.Directory _ _ _ _ _) => true
  | _ => false

/-- Is the result a `ProtocolUnexpectedMessage` error? -/
def isUnexpectedMessageResult : Except TransferError ReceiveRequest → Bool
  | .error (.ProtocolUnexpectedMessage _ _) => true
  | _ => false

/-- A sample pending request, for concrete runs. -/
def reqSample : ReceiveRequest := ⟨"a.txt", 5, ["direct-tcp-v1"], ["tcp:peer:9000"]⟩

/-! ## C1 -/

/-- C1 counterexample: when the first message to arrive is the peer's
`Error` variant — "another arriving variant" in the claim's words —
`request_file` returns `PeerError`, not `ProtocolUnexpectedMessage`, and
sends no `Error` message to the peer, contrary to the claim. -/
theorem request_file_claimC1_counterexample :
    isUnexpectedMessageResult
        (request_file (mkEnv [encodePeerMessage (.Error "boom")])).result = false
    ∧ (request_file (mkEnv [encodePeerMessage (.Error "boom")])).result
        = .error (.PeerError "boom")
    ∧ errorSendCount
        (request_file (mkEnv [encodePeerMessage (.Error "boom")])).events = 0 :=
  ⟨rfl, rfl, rfl⟩

/-- C1 (amended): over an otherwise well-behaved channel delivering two
(well-formed) peer messages, `request_file` returns a `ReceiveRequest` iff
they are, in order, a `Transit` message and then an `Offer` of the `File`
or `Directory` variant; an arriving variant other than
`Transit`/`Error` in the first position (resp. other than `Offer`/`Error`
in the second) yields `ProtocolUnexpectedMessage` with the expected tag and
the received message, and a best-effort `Error` rendering that failure is
sent to the peer. -/
theorem request_file_transit_then_offer (m₁ m₂ : PeerMessage)
    (h₁ : m₁.wfb = true) (h₂ : m₂.wfb = true) :
    ((∃ req, (request_file (twoMsgEnv m₁ m₂)).result = .ok req)
        ↔ m₁.isTransit = true ∧ m₂.isActionableOffer = true)
    ∧ (m₁.isTransit = false → m₁.isError = false →
        (request_file (twoMsgEnv m₁ m₂)).result
            = .error (.ProtocolUnexpectedMessage "transit" m₁)
          ∧ Event.sent (.Error (TransferError.ProtocolUnexpectedMessage "transit" m₁).display)
              ∈ (request_file (twoMsgEnv m₁ m₂)).events)
    ∧ (m₁.isTransit = true → m₂.isOffer = false → m₂.isError = false →
        (request_file (twoMsgEnv m₁ m₂)).result
            = .error (.ProtocolUnexpectedMessage "offer" m₂)
          ∧ Event.sent (.Error (TransferError.ProtocolUnexpectedMessage "offer" m₂).display)
              ∈ (request_file (twoMsgEnv m₁ m₂)).events) := by
  have e₁ := decode_encode m₁ h₁
  have e₂ := decode_encode m₂ h₂
  cases m₁ with
  | Transit t =>
    cases m₂ with
    | Offer o =>
      cases o with
      | File filename filesize =>
        simp [request_file, request_file_offer, twoMsgEnv, mkEnv,
          Env.sendAt, Env.recvAt, e₁, e₂, PeerMessage.isTransit,
          PeerMessage.isOffer, PeerMessage.isError, PeerMessage.isActionableOffer]
      | Directory dirname mode zipsize numbytes numfiles =>
        simp [request_file, request_file_offer, twoMsgEnv, mkEnv,
          Env.sendAt, Env.recvAt, e₁, e₂, PeerMessage.isTransit,
          PeerMessage.isOffer, PeerMessage.isError, PeerMessage.isActionableOffer]
      | UnknownVariant tag =>
        simp [request_file, request_file_offer, twoMsgEnv, mkEnv,
          Env.sendAt, Env.recvAt, e₁, e₂, PeerMessage.isTransit,
          PeerMessage.isOffer, PeerMessage.isError, PeerMessage.isActionableOffer]
    | Answer a =>
      simp [request_file, request_file_offer, twoMsgEnv, mkEnv,
        Env.sendAt, Env.recvAt, e₁, e₂, PeerMessage.isTransit,
        PeerMessage.isOffer, PeerMessage.isError, PeerMessage.isActionableOffer]
    | Error s =>
      simp [request_file, request_file_offer, twoMsgEnv, mkEnv,
        Env.sendAt, Env.recvAt, e₁, e₂, PeerMessage.isTransit,
        PeerMessage.isOffer, PeerMessage.isError, PeerMessage.isActionableOffer]
    | Transit t₂ =>
      simp [request_file, request_file_offer, twoMsgEnv, mkEnv,
        Env.sendAt, Env.recvAt, e₁, e₂, PeerMessage.isTransit,
        PeerMessage.isOffer, PeerMessage.isError, PeerMessage.isActionableOffer]
    | Unknown tag =>
      simp [request_file, request_file_offer, twoMsgEnv, mkEnv,
        Env.sendAt, Env.recvAt, e₁, e₂, PeerMessage.isTransit,
        PeerMessage.isOffer, PeerMessage.isError, PeerMessage.isActionableOffer]
  | Offer o =>
    simp [request_file, twoMsgEnv, mkEnv, Env.sendAt, Env.recvAt, e₁,
      PeerMessage.isTransit, PeerMessage.isError]
  | Answer a =>
    simp [request_file, twoMsgEnv, mkEnv, Env.sendAt, Env.recvAt, e₁,
      PeerMessage.isTransit, PeerMessage.isError]
  | Error s =>
    simp [request_file, twoMsgEnv, mkEnv, Env.sendAt, Env.recvAt, e₁,
      PeerMessage.isTransit, PeerMessage.isError]
  | Unknown tag =>
    simp [request_file, twoMsgEnv, mkEnv, Env.sendAt, Env.recvAt, e₁,
      PeerMessage.isTransit, PeerMessage.isError]

/-- C1 witness: the amended theorem at a concrete `Transit` then `File`
offer exchange. -/
theorem request_file_transit_then_offer_witness :
    ∃ req, (request_file (twoMsgEnv (.Transit ⟨["direct-tcp-v1"], ["tcp:h:1"]⟩)
      (.Offer (.File "f" 3)))).result = .ok req :=
  ((request_file_transit_then_offer
      (.Transit ⟨["direct-tcp-v1"], ["tcp:h:1"]⟩) (.Offer (.File "f" 3))
      rfl rfl).1).mpr ⟨rfl, rfl⟩

/-! ## C5 -/

/-- C5: a peer `Error` arriving at either negotiation step of
`request_file` is returned as `PeerError` wrapping the peer's text
verbatim, and no `Error` message is sent back to the peer. -/
theorem peer_error_passthrough (a h : List String) (s : String) :
    ((request_file (mkEnv [encodePeerMessage (.Error s)])).result
        = .error (.PeerError s)
      ∧ errorSendCount
          (request_file (mkEnv [encodePeerMessage (.Error s)])).events = 0)
    ∧ ((request_file (twoMsgEnv (.Transit ⟨a, h⟩) (.Error s))).result
        = .error (.PeerError s)
      ∧ errorSendCount
          (request_file (twoMsgEnv (.Transit ⟨a, h⟩) (.Error s))).events = 0) := by
  have e₁ := decode_encode (.Error s) rfl
  have e₂ := decode_encode (.Transit ⟨a, h⟩) rfl
  refine ⟨⟨?_, ?_⟩, ?_, ?_⟩ <;>
    simp [request_file, request_file_offer, twoMsgEnv, mkEnv, Env.sendAt,
      Env.recvAt, e₁, e₂, errorSendCount, Event.isErrorSend]

/-! ## C8 -/

/-- C8: a received byte sequence that is not a structurally valid
text-encoded `PeerMessage` makes `request_file` fail with the text-decode
error kind `ProtocolJson` (decoding is a total function — no panic — and
the failure is never the binary kind `ProtocolMsgpack` nor a generic
failure). -/
theorem decode_failure_surfaces_as_protocol_json (j : Json) (e : String)
    (h : decodePeerMessage j = .error e) :
    (request_file (mkEnv [j])).result = .error (.ProtocolJson e) := by
  simp [request_file, mkEnv, Env.sendAt, Env.recvAt, h]

/-- C8 witness: a structurally invalid message (a bare number). -/
theorem decode_failure_surfaces_as_protocol_json_witness :
    (request_file (mkEnv [.num 3])).result
      = .error (.ProtocolJson "expected a message object") :=
  decode_failure_surfaces_as_protocol_json (.num 3) "expected a message object" rfl

/-! ## C3 -/

/-- C3 counterexample: when the channel send of the rejection notice fails,
`reject` propagates that failure with `?` and returns before ever reaching
the `close()` call, so the channel is not "always" closed. -/
theorem reject_claimC3_counterexample :
    Event.closeCall ∉ (ReceiveRequest.reject reqSample
        ⟨.ok ⟨[], []⟩, [.error "send failed"], [], .ok (), .ok (), .ok ()⟩).events
    ∧ (ReceiveRequest.reject reqSample
        ⟨.ok ⟨[], []⟩, [.error "send failed"], [], .ok (), .ok (), .ok ()⟩).result
      = .error (.Wormhole "send failed") :=
  ⟨by decide, rfl⟩

/-- C3 (amended): for every `ReceiveRequest` and every environment,
`reject()` never initiates a transit connection (and never runs a bulk
transfer), attempts exactly one send — an `Error` message — and, whenever
that send succeeds, closes the channel before returning (a send failure is
propagated without reaching the close call). -/
theorem reject_behavior (req : ReceiveRequest) (env : Env) :
    Event.followerConnectCall ∉ (req.reject env).events
    ∧ Event.transitInitCall ∉ (req.reject env).events
    ∧ (∀ n, Event.tcpFileReceiveCall n ∉ (req.reject env).events)
    ∧ (req.reject env).events.countP (·.isSend) = 1
    ∧ errorSendCount (req.reject env).events = 1
    ∧ (env.sendAt 0 = .ok () → Event.closeCall ∈ (req.reject env).events) := by
  cases hs : env.sendAt 0 <;> cases hc : env.closeResult <;>
    simp [ReceiveRequest.reject, hs, hc, errorSendCount, Event.isErrorSend,
      Event.isSend, PeerMessage.error_message]

/-- C3 witness: on an all-succeeding environment, the channel is closed
(and the theorem's remaining guarantees hold). -/
theorem reject_behavior_witness :
    Event.closeCall ∈ (reqSample.reject (mkEnv [])).events ∧
    errorSendCount (reqSample.reject (mkEnv [])).events = 1 :=
  ⟨(reject_behavior reqSample (mkEnv [])).2.2.2.2.2 rfl,
   (reject_behavior reqSample (mkEnv [])).2.2.2.2.1⟩

/-! ## C4 -/

/-- C4: a `Directory` offer produces a `ReceiveRequest` whose `filename` is
the advertised `dirname` with its extension rewritten to `zip` and whose
`filesize` is the advertised archived size `zipsize`; `accept` passes that
size to the bulk-transfer delegate as the expected receive length. -/
theorem directory_offer_zip_name_and_zipsize (a h : List String)
    (dirname mode : String) (zipsize numbytes numfiles : Nat) (env₂ : Env)
    (hsend : env₂.sendAt 0 = .ok ()) (hconn : env₂.followerConnect = .ok ()) :
    ∃ req, (request_file (twoMsgEnv (.Transit ⟨a, h⟩)
        (.Offer (.Directory dirname mode zipsize numbytes numfiles)))).result
          = .ok req
      ∧ req.filename = set_extension dirname "zip"
      ∧ req.filesize = zipsize
      ∧ Event.tcpFileReceiveCall zipsize ∈ (req.accept env₂).events := by
  have e₁ := decode_encode (.Transit ⟨a, h⟩) rfl
  have e₂ := decode_encode
    (.Offer (.Directory dirname mode zipsize numbytes numfiles)) rfl
  refine ⟨⟨set_extension dirname "zip", zipsize, a, h⟩, ?_, rfl, rfl, ?_⟩
  · simp [request_file, request_file_offer, twoMsgEnv, mkEnv, Env.sendAt,
      Env.recvAt, e₁, e₂]
  · cases ht : env₂.tcpReceive with
    | error err =>
      cases err <;> simp [ReceiveRequest.accept, hsend, hconn, ht]
    | ok u =>
      cases u
      cases hc : env₂.closeResult <;>
        simp [ReceiveRequest.accept, hsend, hconn, ht, hc]

/-- C4 witness: a concrete `Directory` offer; note the extension is
rewritten (`my.folder` → `my.zip`), and the archived size 99 — not the
original-contents size 120 — is the expected receive length. -/
theorem directory_offer_zip_name_and_zipsize_witness :
    (∃ req, (request_file (twoMsgEnv (.Transit ⟨["a"], ["h"]⟩)
        (.Offer (.Directory "my.folder" "drwxr-xr-x" 99 120 2)))).result
          = .ok req
      ∧ req.filename = set_extension "my.folder" "zip"
      ∧ req.filesize = 99
      ∧ Event.tcpFileReceiveCall 99 ∈ (req.accept (mkEnv [])).events)
    ∧ set_extension "my.folder" "zip" = "my.zip" :=
  ⟨directory_offer_zip_name_and_zipsize ["a"] ["h"] "my.folder" "drwxr-xr-x"
      99 120 2 (mkEnv []) rfl rfl,
   by decide⟩

/-! ## C6 -/

/-- C6: every best-effort `Error` notification's own send result is
discarded: whatever the notification send's outcome `r₁`..`r₄` (success or
failure), the caller still gets exactly the original error — after an
unexpected message at either step of `request_file`, after a
transit-connect failure in `accept`, and after a `Transit`-kind transfer
failure in `accept`. -/
theorem notification_failure_swallowed (m : PeerMessage) (hm : m.wfb = true)
    (ht : m.isTransit = false) (he : m.isError = false)
    (r₁ r₂ r₃ r₄ : Except WormholeError Unit) (ce te : String) :
    ((request_file ⟨.ok ⟨[], []⟩, [.ok (), r₁], [.ok (encodePeerMessage m)],
        .ok (), .ok (), .ok ()⟩).result
      = .error (.ProtocolUnexpectedMessage "transit" m))
    ∧ (m.isOffer = false →
        (request_file ⟨.ok ⟨[], []⟩, [.ok (), r₂],
            [.ok (encodePeerMessage (.Transit ⟨[], []⟩)),
             .ok (encodePeerMessage m)], .ok (), .ok (), .ok ()⟩).result
          = .error (.ProtocolUnexpectedMessage "offer" m))
    ∧ ((reqSample.accept ⟨.ok ⟨[], []⟩, [.ok (), r₃], [], .error ce,
          .ok (), .ok ()⟩).result
        = .error (.TransitConnect ce))
    ∧ ((reqSample.accept ⟨.ok ⟨[], []⟩, [.ok (), r₄], [], .ok (),
          .error (.Transit te), .ok ()⟩).result
        = .error (.Transit te)) := by
  have e := decode_encode m hm
  have et := decode_encode (.Transit ⟨[], []⟩) rfl
  refine ⟨?_, fun ho => ?_, rfl, rfl⟩
  · cases m with
    | Transit t => simp [PeerMessage.isTransit] at ht
    | Error s => simp [PeerMessage.isError] at he
    | Offer o => simp [request_file, Env.sendAt, Env.recvAt, e]
    | Answer a => simp [request_file, Env.sendAt, Env.recvAt, e]
    | Unknown tag => simp [request_file, Env.sendAt, Env.recvAt, e]
  · cases m with
    | Transit t => simp [PeerMessage.isTransit] at ht
    | Error s => simp [PeerMessage.isError] at he
    | Offer o => simp [PeerMessage.isOffer] at ho
    | Answer a =>
      simp [request_file, request_file_offer, Env.sendAt, Env.recvAt, e, et]
    | Unknown tag =>
      simp [request_file, request_file_offer, Env.sendAt, Env.recvAt, e, et]

/-- C6 witness: even when the notification send itself fails, the result of
`request_file` is the original `ProtocolUnexpectedMessage` error. -/
theorem notification_failure_swallowed_witness :
    (request_file ⟨.ok ⟨[], []⟩,
        [.ok (), .error "notification send failed"],
        [.ok (encodePeerMessage (.Answer (.FileAck "ok")))],
        .ok (), .ok (), .ok ()⟩).result
      = .error (.ProtocolUnexpectedMessage "transit" (.Answer (.FileAck "ok"))) :=
  (notification_failure_swallowed (.Answer (.FileAck "ok")) rfl rfl rfl
    (.error "notification send failed") (.ok ()) (.ok ()) (.ok ()) "ce" "te").1

/-! ## C7 -/

/-- C7 (spec-modelled): an incoming message whose variant tag is not
recognized decodes to the distinguishable `Unknown` value — and an offer
whose inner variant tag is not recognized to `Offer.UnknownVariant` —
rather than failing the decode; `request_file` then rejects such an offer
with `UnsupportedOffer`. -/
theorem unknown_variant_tolerance (tag otag : String) (payload opayload : Json)
    (h : tag ∉ recognizedTags) (h₁ : otag ≠ "file") (h₂ : otag ≠ "directory") :
    decodePeerMessage (.obj [(tag, payload)]) = .ok (.Unknown tag)
    ∧ decodeOffer (.obj [(otag, opayload)]) = .ok (.UnknownVariant otag)
    ∧ (request_file (mkEnv [encodePeerMessage (.Transit ⟨[], []⟩),
        .obj [("offer", .obj [(otag, opayload)])]])).result
      = .error .UnsupportedOffer := by
  simp only [recognizedTags, List.mem_cons, List.not_mem_nil, or_false,
    not_or] at h
  obtain ⟨g₁, g₂, g₃, g₄⟩ := h
  have et := decode_encode (.Transit ⟨[], []⟩) rfl
  have hdec : decodePeerMessage (.obj [("offer", .obj [(otag, opayload)])])
      = .ok (.Offer (.UnknownVariant otag)) := by
    simp [decodePeerMessage, decodeOffer, jlookup, h₁, h₂, Except.map]
  refine ⟨?_, ?_, ?_⟩
  · simp [decodePeerMessage, jlookup, g₁, g₂, g₃, g₄]
  · simp [decodeOffer, jlookup, h₁, h₂]
  · simp [request_file, request_file_offer, mkEnv, Env.sendAt, Env.recvAt,
      et, hdec]

/-- C7 witness: a `transit-v2` top-level tag and a `message` offer
variant, neither understood by this implementation. -/
theorem unknown_variant_tolerance_witness :
    decodePeerMessage (.obj [("transit-v2", .null)]) = .ok (.Unknown "transit-v2")
    ∧ decodeOffer (.obj [("message", .str "hi")]) = .ok (.UnknownVariant "message")
    ∧ (request_file (mkEnv [encodePeerMessage (.Transit ⟨[], []⟩),
        .obj [("offer", .obj [("message", .str "hi")])]])).result
      = .error .UnsupportedOffer :=
  unknown_variant_tolerance "transit-v2" "message" .null (.str "hi")
    (by decide) (by decide) (by decide)

/-! ## C9: the acknowledgment record's wire encoding

`TransitAck::serialize_vec` of the source is `serde_json::to_vec(self)`:
the UTF-8 bytes of the compact JSON *text* rendering. The binary-map
encoding the spec names (MessagePack, the `rmp_serde` of the error
taxonomy) is modelled alongside for comparison. -/

/-- A lowercase hexadecimal digit. -/
def hexDigit (n : Nat) : Char :=
  if n < 10 then Char.ofNat (48 + n) else Char.ofNat (87 + n)

/-- `serde_json`'s escaping of one character inside a JSON string. -/
def jsonEscapeChar (c : Char) : List Char :=
  if c = '"' then ['\\', '"']
  else if c = '\\' then ['\\', '\\']
  else if c.toNat = 8 then ['\\', 'b']
  else if c.toNat = 12 then ['\\', 'f']
  else if c = '\n' then ['\\', 'n']
  else if c = '\r' then ['\\', 'r']
  else if c = '\t' then ['\\', 't']
  else if c.toNat < 32 then
    ['\\', 'u', '0', '0', hexDigit (c.toNat / 16), hexDigit (c.toNat % 16)]
  else [c]

/-- A JSON string literal, quoted and escaped. -/
def jsonRenderString (s : String) : String :=
  ⟨'"' :: s.data.foldr (fun c acc => jsonEscapeChar c ++ acc) ['"']⟩

mutual
/-- Compact JSON text rendering of a value (`serde_json` text encoding). -/
def jsonRender : Json → String
  | .null => "null"
  | .bool true => "true"
  | .bool false => "false"
  | .num n => toString n
  | .str s => jsonRenderString s
  | .arr elems => "[" ++ jsonRenderArr elems ++ "]"
  | .obj members => "\x7b" ++ jsonRenderObj members ++ "\x7d"
/-- Comma-separated rendering of array elements. -/
def jsonRenderArr : List Json → String
  | [] => ""
  | [j] => jsonRender j
  | j :: rest => jsonRender j ++ "," ++ jsonRenderArr rest
/-- Comma-separated rendering of object members. -/
def jsonRenderObj : List (String × Json) → String
  | [] => ""
  | [(k, v)] => jsonRenderString k ++ ":" ++ jsonRender v
  | (k, v) :: rest =>
      jsonRenderString k ++ ":" ++ jsonRender v ++ "," ++ jsonRenderObj rest
end

/-- UTF-8 encoding of one character. -/
def utf8EncodeChar (c : Char) : List Nat :=
  let n := c.toNat
  if n < 0x80 then [n]
  else if n < 0x800 then [0xC0 + n / 64, 0x80 + n % 64]
  else if n < 0x10000 then
    [0xE0 + n / 4096, 0x80 + (n / 64) % 64, 0x80 + n % 64]
  else
    [0xF0 + n / 262144, 0x80 + (n / 4096) % 64, 0x80 + (n / 64) % 64,
     0x80 + n % 64]

/-- UTF-8 bytes of a string. -/
def utf8Encode (s : String) : List Nat :=
  s.data.foldr (fun c acc => utf8EncodeChar c ++ acc) []

/-- `TransitAck` of `src/transfer.rs` (kebab-case renaming leaves both
field names unchanged on the wire). -/
structure TransitAck where
  ack : String
  sha256 : String
deriving DecidableEq

/-- The JSON value `serde_json` serializes a `TransitAck` to. -/
def TransitAck.toJson (a : TransitAck) : Json :=
  .obj [("ack", .str a.ack), ("sha256", .str a.sha256)]

/-- `TransitAck::serialize_vec` of the source: `serde_json::to_vec(self)`,
the UTF-8 bytes of the compact JSON text rendering of the record. -/
def TransitAck.serialize_vec (a : TransitAck) : List Nat :=
  utf8Encode (jsonRender a.toJson)

/-- `TransitAck::serialize` of the source (test-only JSON string form). -/
def TransitAck.serialize (a : TransitAck) : String := jsonRender a.toJson

/-- Modelled from the spec: the binary-map encoding (MessagePack) of a
string — fixstr / str8 / str16 headers before the UTF-8 bytes. -/
def msgpackStr (s : String) : List Nat :=
  let bs := utf8Encode s
  if bs.length < 32 then (0xA0 + bs.length) :: bs
  else if bs.length < 256 then 0xD9 :: bs.length :: bs
  else 0xDA :: bs.length / 256 :: bs.length % 256 :: bs

/-- Modelled from the spec: the binary-map encoding of the acknowledgment
record `{ack, sha256}`: a two-entry fixmap of string keys and values. -/
def msgpackAck (a : TransitAck) : List Nat :=
  0x82 :: (msgpackStr "ack" ++ msgpackStr a.ack
    ++ msgpackStr "sha256" ++ msgpackStr a.sha256)

/-- C9 counterexample: `serialize_vec` of the repository's own test record
yields the UTF-8 bytes of the JSON *text* `{"ack":"ok","sha256":"deadbeaf"}`
(the middle conjunct reproduces the repository's `test_transit_ack` unit
test), which is not the binary-map encoding of that record. -/
theorem transitAck_claimC9_counterexample :
    TransitAck.serialize_vec ⟨"ok", "deadbeaf"⟩
      = utf8Encode "\x7b\"ack\":\"ok\",\"sha256\":\"deadbeaf\"\x7d"
    ∧ TransitAck.serialize ⟨"ok", "deadbeaf"⟩
      = "\x7b\"ack\":\"ok\",\"sha256\":\"deadbeaf\"\x7d"
    ∧ TransitAck.serialize_vec ⟨"ok", "deadbeaf"⟩ ≠ msgpackAck ⟨"ok", "deadbeaf"⟩ :=
  ⟨by decide, by decide, by decide⟩

/-- C9 (amended): the `TransitAck` acknowledgment record is serialized for
the wire in the *text* (JSON) encoding — the same self-describing text
format used for peer messages — and its bytes never coincide with the
binary-map encoding of the record. -/
theorem transitAck_text_encoded (a : TransitAck) :
    TransitAck.serialize_vec a = utf8Encode (jsonRender a.toJson)
    ∧ TransitAck.serialize_vec a ≠ msgpackAck a := by
  refine ⟨rfl, fun hEq => ?_⟩
  have h₂ : (0x7b : Nat) = 0x82 := congrArg (fun l => l.headD 0) hEq
  exact absurd h₂ (by decide)

/-! ## C10 -/

/-- C10: `accept` reaches the channel-close call exactly when the ack send,
the transit connect and the bulk transfer all succeeded; in particular a
transit-connect failure or any bulk-transfer failure returns without
closing the channel. -/
theorem accept_close_only_on_success (req : ReceiveRequest) (env : Env) :
    (Event.closeCall ∈ (req.accept env).events
      ↔ env.sendAt 0 = .ok () ∧ env.followerConnect = .ok ()
          ∧ env.tcpReceive = .ok ())
    ∧ (∀ e, env.followerConnect = .error e →
        Event.closeCall ∉ (req.accept env).events)
    ∧ (∀ err, env.tcpReceive = .error err →
        Event.closeCall ∉ (req.accept env).events) := by
  cases hs : env.sendAt 0 with
  | error e => simp [ReceiveRequest.accept, hs]
  | ok u =>
    cases u
    cases hf : env.followerConnect with
    | error e => simp [ReceiveRequest.accept, hs, hf]
    | ok u₂ =>
      cases u₂
      cases htc : env.tcpReceive with
      | error err => cases err <;> simp [ReceiveRequest.accept, hs, hf, htc]
      | ok u₃ =>
        cases u₃
        cases hc : env.closeResult <;>
          simp [ReceiveRequest.accept, hs, hf, htc, hc]

/-- C10 witness: on an all-succeeding environment the close call is
reached; with a failing transit connect it is not. -/
theorem accept_close_only_on_success_witness :
    Event.closeCall ∈ (reqSample.accept (mkEnv [])).events
    ∧ Event.closeCall ∉ (reqSample.accept
        ⟨.ok ⟨[], []⟩, [], [], .error "refused", .ok (), .ok ()⟩).events :=
  ⟨(accept_close_only_on_success reqSample (mkEnv [])).1.mpr ⟨rfl, rfl, rfl⟩,
   (accept_close_only_on_success reqSample
      ⟨.ok ⟨[], []⟩, [], [], .error "refused", .ok (), .ok ()⟩).2.1 "refused" rfl⟩

end Transfer
